import Mathlib

/-!
Verification of the client-side simulation-session state machine of the
Traffic Simulation Platform repository.

The development shallowly embeds the TypeScript sources:
  - the type declarations of src/frontend/src/types/index.ts,
  - the context store of src/unnamed/part_001 (SimulationContext: reducer,
    startSimulation, stopSimulation, updateMetrics) and its UploadPage
    (mockRoadNetwork),
  - the configuration component of src/unnamed/part_002 (validateConfig,
    vehicle-mix slider handlers, start/stop buttons),
  - the Simulation page of src/frontend/src/pages/Simulation.tsx
    (handleStartSimulation, handleStopSimulation, handleReset, the 1 Hz
    mock metrics interval),
  - the history buffer of
    src/frontend/src/components/simulation/MetricsDashboard.tsx.

JavaScript numbers are modelled as rationals, JS strings as String,
optional values and null as Option. The random draws of the mock sampler
are modelled as explicit rational parameters in the interval from 0
inclusive to 1 exclusive.
-/

/-- From types/index.ts: interface SimulationConfig. -/
structure SimulationConfig where
  vehicles_per_hour : Rat
  car_percentage : Rat
  truck_percentage : Rat
  peak_hour_factor : Rat
  signal_control : String
  green_time : Rat
  yellow_time : Rat
  red_time : Rat
  simulation_duration : Rat
deriving DecidableEq

/-- From types/index.ts: interface SimulationMetrics. The three optional
fields time, total_vehicles, waiting_vehicles are modelled as Options,
absent (none) in every sample the client code constructs. -/
structure SimulationMetrics where
  average_speed_kmh : Rat
  total_queue_length : Rat
  average_wait_time_seconds : Rat
  throughput_vehicles_per_hour : Rat
  time : Option Rat := none
  total_vehicles : Option Rat := none
  waiting_vehicles : Option Rat := none
deriving DecidableEq

/-- From types/index.ts: interface SimulationTemplate. -/
structure SimulationTemplate where
  name : String
  description : String
  vehicles_per_hour : Rat
  car_percentage : Rat
  truck_percentage : Rat
  peak_hour_factor : Rat
  signal_control : String
  green_time : Rat
  yellow_time : Rat
  red_time : Rat
deriving DecidableEq

/-- From types/index.ts: the status union of interface SimulationStatus,
"idle" | "running" | "paused" | "completed" | "error". -/
inductive SessionStatus where
  | idle
  | running
  | paused
  | completed
  | error
deriving DecidableEq

/-- From types/index.ts: interface SimulationStatus (the session record). -/
structure SimulationStatus where
  simulation_id : String
  status : SessionStatus
  message : String
  metrics : Option SimulationMetrics := none
deriving DecidableEq

/-- From types/index.ts: interface RoadSegment. Points are coordinate
pairs. -/
structure RoadSegment where
  id : String
  start_point : Rat × Rat
  end_point : Rat × Rat
  road_type : String
  num_lanes : Rat
  speed_limit : Rat
  width : Rat
  length : Rat
deriving DecidableEq

/-- From types/index.ts: interface Intersection. -/
structure Intersection where
  id : String
  center_point : Rat × Rat
  intersection_type : String
  connected_segments : List String
deriving DecidableEq

/-- From types/index.ts: interface Lane. -/
structure Lane where
  id : String
  road_segment_id : String
  lane_number : Rat
  start_point : Rat × Rat
  end_point : Rat × Rat
  width : Rat
  direction : String
deriving DecidableEq

/-- From types/index.ts: interface NetworkMetrics. -/
structure NetworkMetrics where
  total_length_km : Rat
  total_lanes : Rat
  avg_speed_limit_kmh : Rat
  num_segments : Rat
  num_intersections : Rat
deriving DecidableEq

/-- From types/index.ts: interface RoadNetwork. -/
structure RoadNetwork where
  id : String
  segments : List RoadSegment
  intersections : List Intersection
  lanes : List Lane
  bounds : (Rat × Rat) × (Rat × Rat)
  metrics : NetworkMetrics
deriving DecidableEq

/-- From part_001 (SimulationContext): interface SimulationState. -/
structure SimulationState where
  currentSimulation : Option SimulationStatus
  roadNetwork : Option RoadNetwork
  simulationConfig : Option SimulationConfig
  templates : List SimulationTemplate
  isLoading : Bool
  error : Option String
deriving DecidableEq

/-- From part_001 (SimulationContext): type SimulationAction. -/
inductive SimulationAction where
  | setLoading (payload : Bool)
  | setError (payload : Option String)
  | setRoadNetwork (payload : RoadNetwork)
  | setSimulationConfig (payload : SimulationConfig)
  | startSimulation (payload : String)
  | updateMetrics (payload : SimulationMetrics)
  | stopSimulation
  | setTemplates (payload : List SimulationTemplate)
  | clearSimulation
deriving DecidableEq

/-- From part_001 (SimulationContext): const initialState. -/
def initialState : SimulationState :=
  { currentSimulation := none
    roadNetwork := none
    simulationConfig := none
    templates := []
    isLoading := false
    error := none }

/-- From part_001 (SimulationContext): const simulationReducer, lines 39-104.
Each case returns the state with the corresponding fields replaced. -/
def simulationReducer (state : SimulationState) (action : SimulationAction) :
    SimulationState :=
  match action with
  | .setLoading payload => { state with isLoading := payload }
  | .setError payload => { state with error := payload }
  | .setRoadNetwork payload => { state with roadNetwork := some payload }
  | .setSimulationConfig payload => { state with simulationConfig := some payload }
  | .startSimulation payload =>
      { state with
        currentSimulation := some
          { simulation_id := payload
            status := .running
            message := "Simulation started successfully" }
        error := none }
  | .updateMetrics payload =>
      { state with
        currentSimulation :=
          match state.currentSimulation with
          | some cur => some { cur with metrics := some payload }
          | none => none }
  | .stopSimulation =>
      { state with
        currentSimulation :=
          match state.currentSimulation with
          | some cur => some { cur with status := .completed, message := "Simulation completed" }
          | none => none }
  | .setTemplates payload => { state with templates := payload }
  | .clearSimulation =>
      { state with
        currentSimulation := none
        roadNetwork := none
        simulationConfig := none }

/-- From part_001 (SimulationContext): const startSimulation, lines 138-157.
The generated identifier sim_Date.now() is passed in as simId; the
successful path dispatches SET_LOADING true, SET_ERROR null,
START_SIMULATION simId, SET_SIMULATION_CONFIG config, and in the finally
block SET_LOADING false. -/
def startSimulationOp (simId : String) (config : SimulationConfig)
    (s : SimulationState) : SimulationState :=
  let s1 := simulationReducer s (.setLoading true)
  let s2 := simulationReducer s1 (.setError none)
  let s3 := simulationReducer s2 (.startSimulation simId)
  let s4 := simulationReducer s3 (.setSimulationConfig config)
  simulationReducer s4 (.setLoading false)

/-- From part_001 (SimulationContext): const stopSimulation, lines 159-176.
The successful path dispatches SET_LOADING true, STOP_SIMULATION, and in
the finally block SET_LOADING false. -/
def stopSimulationOp (s : SimulationState) : SimulationState :=
  let s1 := simulationReducer s (.setLoading true)
  let s2 := simulationReducer s1 .stopSimulation
  simulationReducer s2 (.setLoading false)

/-- From part_001 (SimulationContext): const updateMetrics, lines 178-180. -/
def updateMetricsOp (metrics : SimulationMetrics) (s : SimulationState) :
    SimulationState :=
  simulationReducer s (.updateMetrics metrics)

/-- From part_001 (SimulationContext): const setSimulationConfig,
lines 186-188. -/
def setSimulationConfigOp (config : SimulationConfig) (s : SimulationState) :
    SimulationState :=
  simulationReducer s (.setSimulationConfig config)

/-- Projection: the status of the current session, if any. -/
def sessionStatus (s : SimulationState) : Option SessionStatus :=
  s.currentSimulation.map (fun cur => cur.status)

/-- Projection: the latest metrics of the current session, if any. -/
def sessionMetrics (s : SimulationState) : Option SimulationMetrics :=
  s.currentSimulation.bind (fun cur => cur.metrics)

/-- From part_002 (SimulationConfigComponent): const validateConfig,
lines 134-145, the conjunction written in the source order. -/
def validateConfig (config : SimulationConfig) : Bool :=
  decide (config.vehicles_per_hour >= 100) &&
  decide (config.vehicles_per_hour <= 5000) &&
  decide (config.car_percentage + config.truck_percentage = 100) &&
  decide (config.peak_hour_factor >= 1) &&
  decide (config.peak_hour_factor <= 2) &&
  decide (config.green_time > 0) &&
  decide (config.yellow_time > 0) &&
  decide (config.red_time >= 0)

/-- From part_002 (SimulationConfigComponent): the car-percentage slider
onChange, lines 220-224: handleInputChange sets car_percentage to the
parsed value and truck_percentage to 100 minus it (two successive
spread updates of the config, composed here into one record update). -/
def carSliderChange (carPct : Rat) (config : SimulationConfig) :
    SimulationConfig :=
  { config with car_percentage := carPct, truck_percentage := 100 - carPct }

/-- From part_002 (SimulationConfigComponent): the truck-percentage slider
onChange, lines 239-243: sets truck_percentage to the parsed value and
car_percentage to 100 minus it. -/
def truckSliderChange (truckPct : Rat) (config : SimulationConfig) :
    SimulationConfig :=
  { config with truck_percentage := truckPct, car_percentage := 100 - truckPct }

/-- From Simulation.tsx lines 69-74 and MetricsDashboard thresholds: the
all-zero sample handleStopSimulation writes after stopping. -/
def zeroMetrics : SimulationMetrics :=
  { average_speed_kmh := 0
    total_queue_length := 0
    average_wait_time_seconds := 0
    throughput_vehicles_per_hour := 0 }

/-- From Simulation.tsx lines 16-21 and 89-94: the default sample (initial
currentMetrics, and the sample handleReset restores). -/
def resetDefaultMetrics : SimulationMetrics :=
  { average_speed_kmh := 50
    total_queue_length := 0
    average_wait_time_seconds := 0
    throughput_vehicles_per_hour := 0 }

/-- From Simulation.tsx lines 37-47: the sample built by the 1 Hz interval
callback, with the four Math.random() draws passed in as r1, r2, r3, r4. -/
def mkSample (r1 r2 r3 r4 : Rat) : SimulationMetrics :=
  { average_speed_kmh := 40 + r1 * 30
    total_queue_length := r2 * 20
    average_wait_time_seconds := r3 * 60
    throughput_vehicles_per_hour := 800 + r4 * 1200 }

/-- From MetricsDashboard.tsx lines 44-50: the data point appended to the
historical series each dashboard tick. -/
structure HistoryPoint where
  time : String
  average_speed : Rat
  queue_length : Rat
  throughput : Rat
  wait_time : Rat
deriving DecidableEq

/-- JavaScript Array.prototype.slice with a negative index -n: the last n
elements of the array (all of them when it is shorter than n). -/
def sliceLast (n : Nat) (l : List HistoryPoint) : List HistoryPoint :=
  l.drop (l.length - n)

/-- From MetricsDashboard.tsx lines 52-56: setHistoricalData appends the
new data point and keeps only the last 20 entries (newData.slice(-20)). -/
def appendHistory (prev : List HistoryPoint) (p : HistoryPoint) :
    List HistoryPoint :=
  sliceLast 20 (prev ++ [p])

/-- From MetricsDashboard.tsx lines 43-50: the data point built from the
current metrics prop and the formatted timestamp. -/
def mkHistoryPoint (timestamp : String) (metrics : SimulationMetrics) :
    HistoryPoint :=
  { time := timestamp
    average_speed := metrics.average_speed_kmh
    queue_length := metrics.total_queue_length
    throughput := metrics.throughput_vehicles_per_hour
    wait_time := metrics.average_wait_time_seconds }

/-- Combined client state of the Simulation page (Simulation.tsx local
state isRunning and currentMetrics, the window.simulationInterval handle
modelled as a Bool, the MetricsDashboard local historicalData, and the
context store). -/
structure PageState where
  store : SimulationState
  isRunning : Bool
  currentMetrics : SimulationMetrics
  intervalActive : Bool
  history : List HistoryPoint
deriving DecidableEq

/-- From Simulation.tsx lines 15-21: the initial local state of the page,
over a given store state. -/
def initialPage (store : SimulationState) : PageState :=
  { store := store
    isRunning := false
    currentMetrics := resetDefaultMetrics
    intervalActive := false
    history := [] }

/-- From Simulation.tsx lines 31-55: handleStartSimulation sets isRunning,
runs the context startSimulation, and installs the 1 Hz interval. -/
def handleStartSimulation (simId : String) (config : SimulationConfig)
    (p : PageState) : PageState :=
  { p with
    isRunning := true
    store := startSimulationOp simId config p.store
    intervalActive := true }

/-- From Simulation.tsx lines 37-47: one firing of the metrics interval
with random draws r1..r4: builds the sample, stores it as currentMetrics
and pushes it to the context store; nothing happens when the interval has
been cleared. -/
def pageTick (r1 r2 r3 r4 : Rat) (p : PageState) : PageState :=
  if p.intervalActive then
    { p with
      currentMetrics := mkSample r1 r2 r3 r4
      store := updateMetricsOp (mkSample r1 r2 r3 r4) p.store }
  else p

/-- From MetricsDashboard.tsx lines 36-61: one firing of the dashboard
interval: while isRealTime (the page passes isRunning) it appends the
current metrics prop to historicalData. -/
def dashboardTick (timestamp : String) (p : PageState) : PageState :=
  if p.isRunning then
    { p with history := appendHistory p.history (mkHistoryPoint timestamp p.currentMetrics) }
  else p

/-- From Simulation.tsx lines 57-80: handleStopSimulation clears the
interval, runs the context stopSimulation, drops isRunning, and writes the
all-zero sample into currentMetrics and the store. -/
def handleStopSimulation (p : PageState) : PageState :=
  let p1 := { p with intervalActive := false }
  let p2 := { p1 with store := stopSimulationOp p1.store, isRunning := false }
  { p2 with
    currentMetrics := zeroMetrics
    store := updateMetricsOp zeroMetrics p2.store }

/-- From Simulation.tsx lines 82-97: handleReset clears the interval, drops
isRunning, and writes the default sample into currentMetrics and the
store. No store action changes the session status or the dashboard
history here. -/
def handleReset (p : PageState) : PageState :=
  { p with
    intervalActive := false
    isRunning := false
    currentMetrics := resetDefaultMetrics
    store := updateMetricsOp resetDefaultMetrics p.store }

/-- From part_002 (SimulationConfigComponent) lines 125-128: the
component-level handleStartSimulation stores the edited config in the
context and then invokes the page-level onStartSimulation. -/
def componentStartClick (simId : String) (config : SimulationConfig)
    (p : PageState) : PageState :=
  let p1 := { p with store := setSimulationConfigOp config p.store }
  handleStartSimulation simId config p1

/-- From part_002 (SimulationConfigComponent) lines 404-426: a user start
request. The Start button is rendered only when not running and is
disabled unless validateConfig() holds and a road network is loaded; a
click on the enabled button runs the component handleStartSimulation,
otherwise nothing happens. -/
def clickStart (simId : String) (config : SimulationConfig) (p : PageState) :
    PageState :=
  if !p.isRunning && validateConfig config && p.store.roadNetwork.isSome then
    componentStartClick simId config p
  else p

/-- From part_001 (UploadPage) lines 347-428: const mockRoadNetwork, the
network handleUpload installs in the context after the simulated
extraction. -/
def mockRoadNetwork : RoadNetwork :=
  { id := "network_001"
    segments :=
      [ { id := "seg_001"
          start_point := (0, 0)
          end_point := (100, 0)
          length := 100
          width := 12
          road_type := "urban"
          speed_limit := 50
          num_lanes := 2 }
      , { id := "seg_002"
          start_point := (50, -50)
          end_point := (50, 50)
          length := 100
          width := 10
          road_type := "urban"
          speed_limit := 40
          num_lanes := 2 } ]
    intersections :=
      [ { id := "int_001"
          center_point := (50, 0)
          intersection_type := "four_way"
          connected_segments := ["seg_001", "seg_002"] } ]
    lanes :=
      [ { id := "lane_001"
          road_segment_id := "seg_001"
          lane_number := 1
          start_point := (0, 0)
          end_point := (100, 0)
          width := 6
          direction := "forward" }
      , { id := "lane_002"
          road_segment_id := "seg_001"
          lane_number := 2
          start_point := (0, 0)
          end_point := (100, 0)
          width := 6
          direction := "forward" }
      , { id := "lane_003"
          road_segment_id := "seg_002"
          lane_number := 1
          start_point := (50, -50)
          end_point := (50, 50)
          width := 5
          direction := "forward" }
      , { id := "lane_004"
          road_segment_id := "seg_002"
          lane_number := 2
          start_point := (50, -50)
          end_point := (50, 50)
          width := 5
          direction := "forward" } ]
    bounds := ((0, -50), (100, 50))
    metrics :=
      { total_length_km := 1/5
        total_lanes := 4
        avg_speed_limit_kmh := 45
        num_segments := 2
        num_intersections := 1 } }

/-- From part_001 (loadTemplates) lines 194-205 and part_002
(handleTemplateChange) lines 96-113: the configuration obtained from the
Urban Intersection template, with simulation_duration set to 3600. -/
def urbanIntersectionConfig : SimulationConfig :=
  { vehicles_per_hour := 1500
    car_percentage := 85
    truck_percentage := 15
    peak_hour_factor := 6/5
    signal_control := "fixed_time"
    green_time := 30
    yellow_time := 3
    red_time := 30
    simulation_duration := 3600 }

/-- A configuration whose vehicle mix does not sum to 100 (car 50, truck
40); otherwise the component defaults of part_002 lines 71-81. -/
def badMixConfig : SimulationConfig :=
  { vehicles_per_hour := 1000
    car_percentage := 50
    truck_percentage := 40
    peak_hour_factor := 1
    signal_control := "fixed_time"
    green_time := 30
    yellow_time := 3
    red_time := 30
    simulation_duration := 3600 }

/-- The page as reached after UploadPage stores the mock network: the
initial page state over the initial store with the road network set. -/
def uploadedPage : PageState :=
  initialPage (simulationReducer initialState (.setRoadNetwork mockRoadNetwork))

/-- A concrete reachable state with a running session: upload, start with
the Urban Intersection template, one metrics tick with draws of one half,
one dashboard tick. -/
def scenarioRunState : PageState :=
  dashboardTick "t1"
    (pageTick (1/2) (1/2) (1/2) (1/2)
      (clickStart "sim_1" urbanIntersectionConfig uploadedPage))

lemma appendHistory_length_le (buf : List HistoryPoint) (p : HistoryPoint) :
    (appendHistory buf p).length ≤ 20 := by
  simp only [appendHistory, sliceLast, List.length_drop, List.length_append,
    List.length_cons, List.length_nil]
  omega

lemma foldl_appendHistory_length_le (es : List HistoryPoint)
    (buf : List HistoryPoint) (h : buf.length ≤ 20) :
    (es.foldl appendHistory buf).length ≤ 20 := by
  induction es generalizing buf with
  | nil => simpa using h
  | cons e es ih => exact ih (appendHistory buf e) (appendHistory_length_le buf e)

set_option maxRecDepth 8000 in
/-- C2: the History Buffer, built by folding setHistoricalData's append
over any sequence of samples starting empty, never exceeds 20 entries;
and appending 25 points to an empty buffer keeps exactly the last 20, in
their original relative order. -/
theorem history_buffer_capacity_and_fifo :
    (∀ es : List HistoryPoint, (es.foldl appendHistory []).length ≤ 20) ∧
    (∀ e1 e2 e3 e4 e5 e6 e7 e8 e9 e10 e11 e12 e13 e14 e15 e16 e17 e18 e19
       e20 e21 e22 e23 e24 e25 : HistoryPoint,
      List.foldl appendHistory []
        [e1, e2, e3, e4, e5, e6, e7, e8, e9, e10, e11, e12, e13, e14, e15,
         e16, e17, e18, e19, e20, e21, e22, e23, e24, e25] =
        [e6, e7, e8, e9, e10, e11, e12, e13, e14, e15, e16, e17, e18, e19,
         e20, e21, e22, e23, e24, e25]) := by
  constructor
  · intro es
    exact foldl_appendHistory_length_le es [] (by simp)
  · intro e1 e2 e3 e4 e5 e6 e7 e8 e9 e10 e11 e12 e13 e14 e15 e16 e17 e18 e19
      e20 e21 e22 e23 e24 e25
    simp [appendHistory, sliceLast]

lemma validateConfig_true_iff (c : SimulationConfig) :
    validateConfig c = true ↔
      (100 ≤ c.vehicles_per_hour ∧ c.vehicles_per_hour ≤ 5000 ∧
       c.car_percentage + c.truck_percentage = 100 ∧
       1 ≤ c.peak_hour_factor ∧ c.peak_hour_factor ≤ 2 ∧
       0 < c.green_time ∧ 0 < c.yellow_time ∧ 0 ≤ c.red_time) := by
  simp [validateConfig, ge_iff_le, gt_iff_lt, and_assoc]

/-- C5: validateConfig returns true exactly when the configuration
satisfies the conjunction of range constraints of spec section 4.4. -/
theorem validateConfig_iff_spec (c : SimulationConfig) :
    validateConfig c = true ↔
      (100 ≤ c.vehicles_per_hour ∧ c.vehicles_per_hour ≤ 5000 ∧
       c.car_percentage + c.truck_percentage = 100 ∧
       1 ≤ c.peak_hour_factor ∧ c.peak_hour_factor ≤ 2 ∧
       0 < c.green_time ∧ 0 < c.yellow_time ∧ 0 ≤ c.red_time) :=
  validateConfig_true_iff c

lemma validateConfig_urban : validateConfig urbanIntersectionConfig = true := by
  rw [validateConfig_true_iff]
  norm_num [urbanIntersectionConfig]

lemma validateConfig_badMix : validateConfig badMixConfig = false := by
  refine Bool.eq_false_iff.mpr (fun hcontra => ?_)
  rw [validateConfig_true_iff] at hcontra
  norm_num [badMixConfig] at hcontra

/-- C6: stopping is idempotent, both for the STOP_SIMULATION reducer case
alone and for the full controller-level stopSimulation operation: a second
stop in a row leaves the state exactly as after the first. -/
theorem stop_idempotent (s : SimulationState) :
    stopSimulationOp (stopSimulationOp s) = stopSimulationOp s ∧
    simulationReducer (simulationReducer s .stopSimulation) .stopSimulation =
      simulationReducer s .stopSimulation := by
  rcases s with ⟨cs, rn, sc, t, l, e⟩
  cases cs <;> exact ⟨rfl, rfl⟩

/-- C7: dispatching STOP_SIMULATION when no session is active leaves the
store state entirely unchanged (a benign no-op, in particular no error is
produced). -/
theorem stop_no_session_noop (s : SimulationState)
    (h : s.currentSimulation = none) :
    simulationReducer s .stopSimulation = s := by
  rcases s with ⟨cs, rn, sc, t, l, e⟩
  cases cs
  · rfl
  · exact Option.noConfusion h

/-- C7 witness: the initial store has no session, and stopping it changes
nothing. -/
theorem stop_no_session_noop_witness :
    initialState.currentSimulation = none ∧
    simulationReducer initialState .stopSimulation = initialState :=
  ⟨rfl, stop_no_session_noop initialState rfl⟩

/-- C9: for every store state, configuration and generated identifier, the
context startSimulation yields a session record with status running and no
metrics (a fresh record replaces any previous one), and stores the given
configuration. -/
theorem start_creates_running_session (simId : String)
    (c : SimulationConfig) (s : SimulationState) :
    sessionStatus (startSimulationOp simId c s) = some SessionStatus.running ∧
    sessionMetrics (startSimulationOp simId c s) = none ∧
    (startSimulationOp simId c s).simulationConfig = some c :=
  ⟨rfl, rfl, rfl⟩

/-- C10: each vehicle-mix slider handler writes the edited value and the
complement to 100 into the configuration, so the mix always sums to 100
after either slider edit. -/
theorem slider_mix_sums_to_100 (c : SimulationConfig) (v : Rat)
    (hv0 : 0 ≤ v) (hv1 : v ≤ 100) :
    (carSliderChange v c).car_percentage = v ∧
    (carSliderChange v c).truck_percentage = 100 - v ∧
    (carSliderChange v c).car_percentage +
      (carSliderChange v c).truck_percentage = 100 ∧
    (truckSliderChange v c).truck_percentage = v ∧
    (truckSliderChange v c).car_percentage = 100 - v ∧
    (truckSliderChange v c).car_percentage +
      (truckSliderChange v c).truck_percentage = 100 :=
  ⟨rfl, rfl, by show v + (100 - v) = 100; ring,
   rfl, rfl, by show (100 - v) + v = 100; ring⟩

/-- C10 witness: moving the car slider to 30 on the default configuration. -/
theorem slider_mix_sums_to_100_witness :
    (0:Rat) ≤ 30 ∧ (30:Rat) ≤ 100 ∧
    ((carSliderChange 30 badMixConfig).car_percentage = 30 ∧
     (carSliderChange 30 badMixConfig).truck_percentage = 100 - 30 ∧
     (carSliderChange 30 badMixConfig).car_percentage +
       (carSliderChange 30 badMixConfig).truck_percentage = 100 ∧
     (truckSliderChange 30 badMixConfig).truck_percentage = 30 ∧
     (truckSliderChange 30 badMixConfig).car_percentage = 100 - 30 ∧
     (truckSliderChange 30 badMixConfig).car_percentage +
       (truckSliderChange 30 badMixConfig).truck_percentage = 100) :=
  ⟨by norm_num, by norm_num,
   slider_mix_sums_to_100 badMixConfig 30 (by norm_num) (by norm_num)⟩

/-- C1: when validateConfig fails, a start request through the
configuration component is a no-op: the disabled button never invokes the
store, so the whole page state, and with it the session status, is
unchanged. -/
theorem invalid_config_start_noop (simId : String) (c : SimulationConfig)
    (p : PageState) (h : validateConfig c = false) :
    clickStart simId c p = p := by
  simp [clickStart, h]

/-- C1 witness: a configuration whose vehicle mix sums to 90 fails
validation, and a start click on the freshly uploaded page changes
nothing. -/
theorem invalid_config_start_noop_witness :
    validateConfig badMixConfig = false ∧
    clickStart "sim_1" badMixConfig uploadedPage = uploadedPage :=
  ⟨validateConfig_badMix,
   invalid_config_start_noop "sim_1" badMixConfig uploadedPage validateConfig_badMix⟩

/-- C8: every sample the interval callback can emit lies in the fixed
ranges, for all values of the four random draws in the interval from 0
inclusive to 1 exclusive. -/
theorem sample_within_ranges (r1 r2 r3 r4 : Rat)
    (h1 : 0 ≤ r1) (h1' : r1 < 1) (h2 : 0 ≤ r2) (h2' : r2 < 1)
    (h3 : 0 ≤ r3) (h3' : r3 < 1) (h4 : 0 ≤ r4) (h4' : r4 < 1) :
    40 ≤ (mkSample r1 r2 r3 r4).average_speed_kmh ∧
    (mkSample r1 r2 r3 r4).average_speed_kmh < 70 ∧
    0 ≤ (mkSample r1 r2 r3 r4).total_queue_length ∧
    (mkSample r1 r2 r3 r4).total_queue_length < 20 ∧
    0 ≤ (mkSample r1 r2 r3 r4).average_wait_time_seconds ∧
    (mkSample r1 r2 r3 r4).average_wait_time_seconds < 60 ∧
    800 ≤ (mkSample r1 r2 r3 r4).throughput_vehicles_per_hour ∧
    (mkSample r1 r2 r3 r4).throughput_vehicles_per_hour < 2000 := by
  simp only [mkSample]
  refine ⟨by nlinarith, by nlinarith, by nlinarith, by nlinarith,
    by nlinarith, by nlinarith, by nlinarith, by nlinarith⟩

/-- C8 witness: the sample at draws of one half. -/
theorem sample_within_ranges_witness :
    (0:Rat) ≤ 1/2 ∧ (1/2:Rat) < 1 ∧
    (40 ≤ (mkSample (1/2) (1/2) (1/2) (1/2)).average_speed_kmh ∧
     (mkSample (1/2) (1/2) (1/2) (1/2)).average_speed_kmh < 70 ∧
     0 ≤ (mkSample (1/2) (1/2) (1/2) (1/2)).total_queue_length ∧
     (mkSample (1/2) (1/2) (1/2) (1/2)).total_queue_length < 20 ∧
     0 ≤ (mkSample (1/2) (1/2) (1/2) (1/2)).average_wait_time_seconds ∧
     (mkSample (1/2) (1/2) (1/2) (1/2)).average_wait_time_seconds < 60 ∧
     800 ≤ (mkSample (1/2) (1/2) (1/2) (1/2)).throughput_vehicles_per_hour ∧
     (mkSample (1/2) (1/2) (1/2) (1/2)).throughput_vehicles_per_hour < 2000) :=
  ⟨by norm_num, by norm_num,
   sample_within_ranges (1/2) (1/2) (1/2) (1/2) (by norm_num) (by norm_num)
     (by norm_num) (by norm_num) (by norm_num) (by norm_num) (by norm_num)
     (by norm_num)⟩

/-- C3: for any page state and any configuration (in particular any valid
one), the page-level start handler followed immediately by the stop
handler, with no tick in between, leaves the session with status completed
and latest metrics equal to the all-zero sample. -/
theorem start_then_stop_completed_zero (simId : String)
    (c : SimulationConfig) (p : PageState) (h : validateConfig c = true) :
    sessionStatus (handleStopSimulation (handleStartSimulation simId c p)).store =
      some SessionStatus.completed ∧
    sessionMetrics (handleStopSimulation (handleStartSimulation simId c p)).store =
      some zeroMetrics :=
  ⟨rfl, rfl⟩

/-- C3 witness: the Urban Intersection template configuration is valid, and
starting then stopping with it on the freshly uploaded page completes the
session with zeroed metrics. -/
theorem start_then_stop_completed_zero_witness :
    validateConfig urbanIntersectionConfig = true ∧
    (sessionStatus (handleStopSimulation
        (handleStartSimulation "sim_1" urbanIntersectionConfig uploadedPage)).store =
      some SessionStatus.completed ∧
     sessionMetrics (handleStopSimulation
        (handleStartSimulation "sim_1" urbanIntersectionConfig uploadedPage)).store =
      some zeroMetrics) :=
  ⟨validateConfig_urban,
   start_then_stop_completed_zero "sim_1" urbanIntersectionConfig uploadedPage
     validateConfig_urban⟩

lemma clickStart_urban_uploaded :
    clickStart "sim_1" urbanIntersectionConfig uploadedPage =
      componentStartClick "sim_1" urbanIntersectionConfig uploadedPage := by
  unfold clickStart
  rw [validateConfig_urban]
  rfl

lemma scenarioRunState_eq :
    scenarioRunState =
      dashboardTick "t1" (pageTick (1/2) (1/2) (1/2) (1/2)
        (componentStartClick "sim_1" urbanIntersectionConfig uploadedPage)) := by
  rw [scenarioRunState, clickStart_urban_uploaded]

lemma scenario_status_running :
    sessionStatus scenarioRunState.store = some SessionStatus.running := by
  rw [scenarioRunState_eq]; rfl

lemma reset_scenario_status :
    sessionStatus (handleReset scenarioRunState).store =
      some SessionStatus.running := by
  rw [scenarioRunState_eq]; rfl

lemma reset_scenario_history :
    (handleReset scenarioRunState).history =
      [mkHistoryPoint "t1" (mkSample (1/2) (1/2) (1/2) (1/2))] := by
  rw [scenarioRunState_eq]; rfl

/-- C4 counterexample: a concrete reachable state with a running session
(upload, valid start, one tick, one dashboard append) on which reset does
not produce an idle session and does not empty the History Buffer: the
store status stays running and the buffer keeps its entry. -/
theorem reset_claim_counterexample :
    sessionStatus scenarioRunState.store = some SessionStatus.running ∧
    sessionStatus (handleReset scenarioRunState).store ≠
      some SessionStatus.idle ∧
    (handleReset scenarioRunState).history ≠ [] := by
  refine ⟨scenario_status_running, ?_, ?_⟩
  · rw [reset_scenario_status]; simp
  · rw [reset_scenario_history]; simp

/-- C4 amended: from any state with a running session, handleReset stops
the sampler interval, drops the page running flag, restores the default
sample as latest metrics in the page and in the store, does not mark the
session completed (the store session status stays running, not idle), and
leaves the History Buffer unchanged rather than clearing it. -/
theorem reset_behavior_amended (p : PageState)
    (h : sessionStatus p.store = some SessionStatus.running) :
    (handleReset p).isRunning = false ∧
    (handleReset p).intervalActive = false ∧
    (handleReset p).currentMetrics = resetDefaultMetrics ∧
    sessionMetrics (handleReset p).store = some resetDefaultMetrics ∧
    sessionStatus (handleReset p).store = some SessionStatus.running ∧
    (handleReset p).history = p.history := by
  cases hcs : p.store.currentSimulation with
  | none => simp [sessionStatus, hcs] at h
  | some cur =>
      have hst : cur.status = SessionStatus.running := by
        simpa [sessionStatus, hcs] using h
      refine ⟨rfl, rfl, rfl, ?_, ?_, rfl⟩
      · simp [handleReset, updateMetricsOp, simulationReducer, sessionMetrics, hcs]
      · simp [handleReset, updateMetricsOp, simulationReducer, sessionStatus, hcs, hst]

/-- C4 amended witness: the amended reset behavior at the concrete
reachable running state. -/
theorem reset_behavior_amended_witness :
    sessionStatus scenarioRunState.store = some SessionStatus.running ∧
    ((handleReset scenarioRunState).isRunning = false ∧
     (handleReset scenarioRunState).intervalActive = false ∧
     (handleReset scenarioRunState).currentMetrics = resetDefaultMetrics ∧
     sessionMetrics (handleReset scenarioRunState).store = some resetDefaultMetrics ∧
     sessionStatus (handleReset scenarioRunState).store = some SessionStatus.running ∧
     (handleReset scenarioRunState).history = scenarioRunState.history) :=
  ⟨scenario_status_running,
   reset_behavior_amended scenarioRunState scenario_status_running⟩
